import Mathlib

/-!
Crystal Scraper — verification of the specification against the code.

This development shallowly embeds the parts of the Crystal Scraper repository
that the specification talks about.  The frontend request layer is embedded
directly from `frontend/src/App.js` and `frontend/src/services/api.js`.  The
backend crawl/fetch/extract/format/report engine (`api.py`,
`scraper/scraper.py`) is not part of the source tree available here, so those
components are modelled from the specification; each such definition carries a
doc comment starting with `Modelled from the spec:`.

Strings are manipulated through their underlying character lists so that every
definition is executable and kernel-reducible.
-/

/-! ## String helpers (kernel-reducible replacements for `Substring`-based ops) -/

/-- `chopLeadChars p s` returns `some r` when `s = p ++ r`, and `none` when `p`
is not a prefix of `s`.  Character-list core of prefix matching. -/
def chopLeadChars : List Char → List Char → Option (List Char)
  | [], s => some s
  | _ :: _, [] => none
  | p :: ps, c :: cs => if p = c then chopLeadChars ps cs else none

/-- String-level prefix chopping: `chopLead p s = some r` iff `s = p ++ r`. -/
def chopLead (p s : String) : Option String :=
  (chopLeadChars p.data s.data).map (fun l => String.mk l)

/-- `strStarts p s` tells whether the string `s` starts with `p`
(the JS `String.prototype.startsWith`). -/
def strStarts (p s : String) : Bool :=
  (chopLeadChars p.data s.data).isSome

/-- The JS `String.prototype.trim`: drop whitespace from both ends. -/
def jsTrim (s : String) : String :=
  String.mk (((s.data.dropWhile (·.isWhitespace)).reverse.dropWhile
    (·.isWhitespace)).reverse)

theorem chopLeadChars_eq_some_iff (p : List Char) :
    ∀ s r, chopLeadChars p s = some r ↔ s = p ++ r := by
  induction p with
  | nil => intro s r; simp [chopLeadChars]
  | cons a ps ih =>
    intro s r
    cases s with
    | nil => simp [chopLeadChars]
    | cons c cs =>
      by_cases h : a = c
      · subst h
        simp [chopLeadChars, ih]
      · simp only [chopLeadChars, if_neg h, List.cons_append]
        constructor
        · intro hh; cases hh
        · intro hh
          injection hh with h1 _
          exact absurd h1.symm h

theorem chopLeadChars_append (p r : List Char) :
    chopLeadChars p (p ++ r) = some r :=
  (chopLeadChars_eq_some_iff p (p ++ r) r).mpr rfl

theorem string_data_append (a b : String) : (a ++ b).data = a.data ++ b.data := by
  cases a; cases b; rfl

/-! ## Frontend request layer (embedded from `frontend/src/services/api.js`
and `frontend/src/App.js`) -/

/-- The JSON body posted to `POST /api/scrape` by `ScraperAPI.scrapeWebsite`
(`api.js`, lines 32–45): exactly the four fields `url`, `depth`,
`llm_enabled`, `filename`. -/
structure ScrapeRequestBody where
  url : String
  depth : Int
  llm_enabled : Bool
  filename : String
deriving DecidableEq, Repr

/-- Body construction in `scrapeWebsite(url, depth, llmEnabled, filename)`
(`api.js`, lines 32–45): the four arguments are posted under the keys
`url`, `depth`, `llm_enabled`, `filename`. -/
def scrapeWebsiteBody (url : String) (depth : Int) (llmEnabled : Bool)
    (filename : String) : ScrapeRequestBody :=
  ⟨url, depth, llmEnabled, filename⟩

/-- A call to `scrapeWebsite` with possibly-omitted arguments.  JS default
parameters `depth = 0`, `llmEnabled = true`, `filename = ''` apply exactly
when the corresponding argument is omitted (`none`). -/
def scrapeWebsiteCall (url : String) (depth : Option Int)
    (llmEnabled : Option Bool) (filename : Option String) : ScrapeRequestBody :=
  scrapeWebsiteBody url (depth.getD 0) (llmEnabled.getD true) (filename.getD "")

/-- Outcome of the form submission handler: either an error message is shown
and no request is sent, or a request body is posted to the API. -/
inductive SubmitOutcome where
  | rejected : String → SubmitOutcome
  | submitted : ScrapeRequestBody → SubmitOutcome
deriving DecidableEq, Repr

/-- `handleSubmit` from `App.js` (lines 53–89): an empty (after trim) URL is
rejected with "Please enter a URL"; a URL that starts with neither `http://`
nor `https://` is rejected with "URL must start with http:// or https://";
otherwise `scrapeWebsite(url.trim(), depth, llmEnabled, filename.trim())`
is invoked. -/
def handleSubmit (url : String) (depth : Int) (llmEnabled : Bool)
    (filename : String) : SubmitOutcome :=
  if jsTrim url = "" then
    .rejected "Please enter a URL"
  else if strStarts "http://" url || strStarts "https://" url then
    .submitted (scrapeWebsiteBody (jsTrim url) depth llmEnabled (jsTrim filename))
  else
    .rejected "URL must start with http:// or https://"

/-- The depth choices offered by the `<select>` in `App.js` (lines 151–164):
exactly 0, 1 and 2. -/
def depthOptions : List Int := [0, 1, 2]

example : handleSubmit "example.com" 0 true "" =
    .rejected "URL must start with http:// or https://" := by decide

example : handleSubmit "https://example.com" 1 false "out" =
    .submitted ⟨"https://example.com", 1, false, "out"⟩ := by decide

example : handleSubmit "  " 0 true "" = .rejected "Please enter a URL" := by
  decide

example : scrapeWebsiteCall "https://a.io" none none none =
    ⟨"https://a.io", 0, true, ""⟩ := rfl

/-! ## Fetcher (backend engine) -/

/-- Modelled from the spec: the three fetch strategies of `scraper/scraper.py`
(absent from this source tree), in their fixed priority order — lightweight
async HTTP client (aiohttp), headless-browser renderer (Playwright), full
browser automation (Selenium). -/
inductive Strategy where
  | http : Strategy
  | headless : Strategy
  | browser : Strategy
deriving DecidableEq, Repr

/-- Modelled from the spec: the fixed priority order in which the strategies
are tried. -/
def strategyOrder : List Strategy := [.http, .headless, .browser]

/-- Modelled from the spec: try each strategy outcome in order; the first
success wins; a failure advances to the next strategy; when all strategies
are exhausted the last strategy's failure reason is returned. -/
def tryStrategies : List (Except String String) → Except String String
  | [] => .error "no fetch strategies available"
  | [r] => r
  | r :: r2 :: rs =>
    match r with
    | .ok html => .ok html
    | .error _ => tryStrategies (r2 :: rs)

/-- Modelled from the spec: `fetch(url, timeout) → (html, contentType) or
FetchError` from `scraper/scraper.py` (absent from this source tree).  The
outcome of each individual strategy on the given URL (success with HTML, or a
failure reason covering non-2xx status / timeout / connection error / empty
body) is abstracted as the function `o`; `fetch` runs the strategies in the
fixed priority order. -/
def fetch (o : Strategy → Except String String) : Except String String :=
  tryStrategies (strategyOrder.map o)

/-! ## Extractor (backend engine) -/

mutual

/-- Modelled from the spec: parsed HTML as a node tree (text nodes and
elements with a tag and children), the shape `scraper/scraper.py` (absent
from this source tree) obtains from its best-effort HTML parser.  Malformed
markup parses best-effort into some such tree; arbitrary tags and nesting are
representable. -/
inductive Html where
  | text : String → Html
  | elem : String → HtmlList → Html

/-- A list of sibling HTML nodes. -/
inductive HtmlList where
  | nil : HtmlList
  | cons : Html → HtmlList → HtmlList

end

/-- Modelled from the spec: the element kinds removed entirely before text
extraction (their content must never leak into the output). -/
def removedTags : List String := ["script", "style"]

mutual

/-- Modelled from the spec: text extraction from a parsed HTML node —
script/style elements contribute nothing, text nodes contribute their
content.  Total on every tree, so extraction never raises. -/
def extractText : Html → String
  | .text s => s
  | .elem t cs => if t ∈ removedTags then "" else extractTextL cs

/-- Text extraction over a sibling list. -/
def extractTextL : HtmlList → String
  | .nil => ""
  | .cons h rest => extractText h ++ extractTextL rest

end

mutual

/-- Naive text gathering that keeps every text node (used to state that
extraction equals naive gathering after script/style removal). -/
def gatherText : Html → String
  | .text s => s
  | .elem _ cs => gatherTextL cs

/-- Naive text gathering over a sibling list. -/
def gatherTextL : HtmlList → String
  | .nil => ""
  | .cons h rest => gatherText h ++ gatherTextL rest

end

mutual

/-- Removal of every script/style element from a tree (a removed element at
the root is replaced by an empty element of the same tag). -/
def stripRemoved : Html → Html
  | .text s => .text s
  | .elem t cs => if t ∈ removedTags then .elem t .nil else .elem t (stripRemovedL cs)

/-- Removal of every script/style element from a sibling list: such elements
are dropped entirely, children of kept elements are stripped recursively. -/
def stripRemovedL : HtmlList → HtmlList
  | .nil => .nil
  | .cons (.text s) rest => .cons (.text s) (stripRemovedL rest)
  | .cons (.elem t cs) rest =>
    if t ∈ removedTags then stripRemovedL rest
    else .cons (.elem t (stripRemovedL cs)) (stripRemovedL rest)

end

mutual

theorem extractText_eq_gather_strip : ∀ h : Html,
    extractText h = gatherText (stripRemoved h)
  | .text s => rfl
  | .elem t cs => by
    by_cases ht : t ∈ removedTags
    · simp [extractText, stripRemoved, gatherText, gatherTextL, ht]
    · simp [extractText, stripRemoved, gatherText, ht,
        extractTextL_eq_gather_strip cs]

theorem extractTextL_eq_gather_strip : ∀ l : HtmlList,
    extractTextL l = gatherTextL (stripRemovedL l)
  | .nil => rfl
  | .cons (.text s) rest => by
    simp [extractTextL, stripRemovedL, gatherTextL, extractText, gatherText,
      extractTextL_eq_gather_strip rest]
  | .cons (.elem t cs) rest => by
    by_cases ht : t ∈ removedTags
    · simp [extractTextL, stripRemovedL, gatherTextL, extractText, ht,
        extractTextL_eq_gather_strip rest]
    · simp [extractTextL, stripRemovedL, gatherTextL, extractText, gatherText,
        ht, extractTextL_eq_gather_strip rest, extractTextL_eq_gather_strip cs]

end

/-! ## Crawler / Frontier (backend engine) -/

/-- Modelled from the spec: what a successful fetch+extract of one URL
yields — a title, the extracted text, and the same-domain outbound links. -/
structure FetchedPage where
  title : String
  text : String
  links : List String

/-- Modelled from the spec: the network as seen through `fetch`+`extract` —
for each URL either a fetched page, or `none` when every fetch strategy is
exhausted (a FetchError). -/
def Web : Type := String → Option FetchedPage

/-- Modelled from the spec: per-page crawl record — URL, title, extracted
text, success flag, optional error detail, same-domain outbound links. -/
structure PageResult where
  url : String
  title : String
  text : String
  success : Bool
  error : Option String
  links : List String
deriving Repr

/-- Modelled from the spec: one scrape request's session — root URL, max
depth, the ordered PageResult sequence, and elapsed time (milliseconds;
always 0 in this timeless model). -/
structure CrawlSession where
  rootUrl : String
  maxDepth : Nat
  pages : List PageResult
  elapsedMs : Nat
deriving Repr

/-- Modelled from the spec: the failure reason recorded when all fetch
strategies are exhausted for one URL. -/
def fetchFailureMsg : String := "All fetch strategies failed"

/-- Modelled from the spec: fetching one URL always yields a PageResult — a
success record with the page's data, or a failure record with
`success = false` and an error message (the session is never aborted). -/
def fetchResult (web : Web) (u : String) : PageResult :=
  match web u with
  | some p => ⟨u, p.title, p.text, true, none, p.links⟩
  | none => ⟨u, u, "", false, some fetchFailureMsg, []⟩

/-- Modelled from the spec: process one breadth-first level.  For each URL in
the level, in discovery order: skip it if already visited or if the hard
page-count ceiling `maxPages` is reached; otherwise mark it visited, fetch
it, record its PageResult, and (when `follow` is set) contribute its
outbound links to the next level's candidates.  Returns the updated visited
list, the updated PageResult list, and the next level's candidates. -/
def processLevel (web : Web) (maxPages : Nat) (follow : Bool) :
    List String → List String → List PageResult →
    List String × List PageResult × List String
  | [], visited, acc => (visited, acc, [])
  | u :: us, visited, acc =>
    if u ∈ visited ∨ maxPages ≤ visited.length then
      processLevel web maxPages follow us visited acc
    else
      let r := fetchResult web u
      let rest := processLevel web maxPages follow us (visited ++ [u]) (acc ++ [r])
      (rest.1, rest.2.1, (if follow then r.links else []) ++ rest.2.2)

/-- Modelled from the spec: level-by-level breadth-first loop.  `depthLeft`
counts how many more levels of links may still be followed; the final level
is processed without following links. -/
def crawlLoop (web : Web) (maxPages : Nat) :
    Nat → List String → List String → List PageResult →
    List String × List PageResult
  | 0, frontier, visited, acc =>
    let r := processLevel web maxPages false frontier visited acc
    (r.1, r.2.1)
  | d + 1, frontier, visited, acc =>
    let r := processLevel web maxPages true frontier visited acc
    crawlLoop web maxPages d r.2.2 r.1 r.2.1

/-- Modelled from the spec: `crawl(rootUrl, maxDepth) → CrawlSession` from
`scraper/scraper.py` (absent from this source tree): breadth-first traversal
starting at the root URL, visited-URL deduplication, a hard page-count
ceiling `maxPages`, depth bound `maxDepth` (0 means no link-following). -/
def crawl (web : Web) (maxPages : Nat) (rootUrl : String) (maxDepth : Nat) :
    CrawlSession :=
  ⟨rootUrl, maxDepth, (crawlLoop web maxPages maxDepth [rootUrl] [] []).2, 0⟩

theorem fetchResult_url (web : Web) (u : String) : (fetchResult web u).url = u := by
  unfold fetchResult; cases web u <;> rfl

theorem processLevel_nil (web : Web) (mp : Nat) (f : Bool) (v : List String)
    (a : List PageResult) : processLevel web mp f [] v a = (v, a, []) := rfl

theorem crawlLoop_nil (web : Web) (mp : Nat) :
    ∀ d v a, crawlLoop web mp d [] v a = (v, a) := by
  intro d
  induction d with
  | zero => intro v a; rfl
  | succ d ih => intro v a; simpa [crawlLoop, processLevel] using ih v a

/-- The invariant carried through one level: the visited list stays
duplicate-free and within the ceiling, PageResults correspond one-to-one to
visited URLs, and the PageResult list only grows. -/
theorem processLevel_inv (web : Web) (mp : Nat) (f : Bool) :
    ∀ us visited acc, visited.Nodup →
      List.map PageResult.url acc = visited → visited.length ≤ mp →
      (processLevel web mp f us visited acc).1.Nodup ∧
      List.map PageResult.url (processLevel web mp f us visited acc).2.1 =
        (processLevel web mp f us visited acc).1 ∧
      (processLevel web mp f us visited acc).1.length ≤ mp ∧
      ∃ t, (processLevel web mp f us visited acc).2.1 = acc ++ t := by
  intro us
  induction us with
  | nil => intro v a h1 h2 h3; exact ⟨h1, h2, h3, [], by simp [processLevel]⟩
  | cons u us ih =>
    intro v a h1 h2 h3
    by_cases hc : u ∈ v ∨ mp ≤ v.length
    · simpa [processLevel, hc] using ih v a h1 h2 h3
    · push_neg at hc
      have hni : u ∉ v := hc.1
      have hlt : v.length < mp := hc.2
      have h1' : (v ++ [u]).Nodup := by
        simp [List.nodup_append, h1, hni]
      have h2' : List.map PageResult.url (a ++ [fetchResult web u]) = v ++ [u] := by
        simp [h2, fetchResult_url]
      have h3' : (v ++ [u]).length ≤ mp := by
        simpa using hlt
      have hrec := ih (v ++ [u]) (a ++ [fetchResult web u]) h1' h2' h3'
      have hsplit : processLevel web mp f (u :: us) v a =
          ((processLevel web mp f us (v ++ [u]) (a ++ [fetchResult web u])).1,
           (processLevel web mp f us (v ++ [u]) (a ++ [fetchResult web u])).2.1,
           (if f then (fetchResult web u).links else []) ++
             (processLevel web mp f us (v ++ [u]) (a ++ [fetchResult web u])).2.2) := by
        simp [processLevel, hni, Nat.not_le.mpr hlt]
      rw [hsplit]
      obtain ⟨hn, hm, hl, t, ht⟩ := hrec
      exact ⟨hn, hm, hl, [fetchResult web u] ++ t, by simp [ht]⟩

/-- The same invariant carried through the whole breadth-first loop. -/
theorem crawlLoop_inv (web : Web) (mp : Nat) :
    ∀ d frontier visited acc, visited.Nodup →
      List.map PageResult.url acc = visited → visited.length ≤ mp →
      (crawlLoop web mp d frontier visited acc).1.Nodup ∧
      List.map PageResult.url (crawlLoop web mp d frontier visited acc).2 =
        (crawlLoop web mp d frontier visited acc).1 ∧
      (crawlLoop web mp d frontier visited acc).1.length ≤ mp ∧
      ∃ t, (crawlLoop web mp d frontier visited acc).2 = acc ++ t := by
  intro d
  induction d with
  | zero =>
    intro frontier v a h1 h2 h3
    simpa [crawlLoop] using processLevel_inv web mp false frontier v a h1 h2 h3
  | succ d ih =>
    intro frontier v a h1 h2 h3
    obtain ⟨hn, hm, hl, t, ht⟩ := processLevel_inv web mp true frontier v a h1 h2 h3
    have hrec := ih (processLevel web mp true frontier v a).2.2
      (processLevel web mp true frontier v a).1
      (processLevel web mp true frontier v a).2.1 hn hm hl
    obtain ⟨hn', hm', hl', t', ht'⟩ := hrec
    refine ⟨by simpa [crawlLoop] using hn', by simpa [crawlLoop] using hm',
      by simpa [crawlLoop] using hl', t ++ t', ?_⟩
    have : (crawlLoop web mp (d + 1) frontier v a).2 =
        (processLevel web mp true frontier v a).2.1 ++ t' := by
      simpa [crawlLoop] using ht'
    rw [this, ht, List.append_assoc]

/-- A PageResult correctly records its own fetch outcome: failure of every
strategy yields `success = false` with an error message, a successful fetch
yields `success = true`. -/
def RecordsOutcome (web : Web) (r : PageResult) : Prop :=
  (web r.url = none → r.success = false ∧ r.error.isSome = true) ∧
  (web r.url ≠ none → r.success = true)

theorem fetchResult_records (web : Web) (u : String) :
    RecordsOutcome web (fetchResult web u) := by
  unfold RecordsOutcome fetchResult
  cases h : web u <;> simp [h]

theorem processLevel_records (web : Web) (mp : Nat) (f : Bool) :
    ∀ us visited acc, (∀ r ∈ acc, RecordsOutcome web r) →
      ∀ r ∈ (processLevel web mp f us visited acc).2.1, RecordsOutcome web r := by
  intro us
  induction us with
  | nil => intro v a ha; simpa [processLevel] using ha
  | cons u us ih =>
    intro v a ha
    by_cases hc : u ∈ v ∨ mp ≤ v.length
    · simpa [processLevel, hc] using ih v a ha
    · push_neg at hc
      have ha' : ∀ r ∈ a ++ [fetchResult web u], RecordsOutcome web r := by
        intro r hr
        rcases List.mem_append.mp hr with h | h
        · exact ha r h
        · rcases List.mem_singleton.mp h with rfl
          exact fetchResult_records web u
      have := ih (v ++ [u]) (a ++ [fetchResult web u]) ha'
      simpa [processLevel, hc.1, Nat.not_le.mpr hc.2] using this

theorem crawlLoop_records (web : Web) (mp : Nat) :
    ∀ d frontier visited acc, (∀ r ∈ acc, RecordsOutcome web r) →
      ∀ r ∈ (crawlLoop web mp d frontier visited acc).2, RecordsOutcome web r := by
  intro d
  induction d with
  | zero =>
    intro frontier v a ha
    simpa [crawlLoop] using processLevel_records web mp false frontier v a ha
  | succ d ih =>
    intro frontier v a ha
    have hmid := processLevel_records web mp true frontier v a ha
    simpa [crawlLoop] using
      ih (processLevel web mp true frontier v a).2.2
        (processLevel web mp true frontier v a).1
        (processLevel web mp true frontier v a).2.1 hmid

/-- Whatever the depth, the crawl opens with the root URL's own result. -/
theorem crawl_pages_head (web : Web) (mp : Nat) (root : String) (d : Nat)
    (hmp : 0 < mp) :
    ∃ t, (crawl web mp root d).pages = fetchResult web root :: t := by
  unfold crawl
  cases d with
  | zero =>
    refine ⟨[], ?_⟩
    simp [crawlLoop, processLevel, Nat.not_le.mpr hmp, crawlLoop_nil]
  | succ d =>
    have hstep : processLevel web mp true [root] [] [] =
        ([root], [fetchResult web root], (fetchResult web root).links) := by
      simp [processLevel, Nat.not_le.mpr hmp]
    have hinv := crawlLoop_inv web mp d (fetchResult web root).links [root]
      [fetchResult web root] (by simp) (by simp [fetchResult_url]) (by simpa using hmp)
    obtain ⟨-, -, -, t, ht⟩ := hinv
    refine ⟨t, ?_⟩
    simpa [crawlLoop, hstep] using ht

/-- When the root page itself fails on every strategy, the session consists of
exactly its single failure record. -/
theorem crawl_root_failure (web : Web) (mp : Nat) (root : String) (d : Nat)
    (hmp : 0 < mp) (hw : web root = none) :
    (crawl web mp root d).pages = [fetchResult web root] := by
  unfold crawl
  have hlinks : (fetchResult web root).links = [] := by
    simp [fetchResult, hw]
  cases d with
  | zero =>
    simp [crawlLoop, processLevel, Nat.not_le.mpr hmp, crawlLoop_nil]
  | succ d =>
    have hstep : processLevel web mp true [root] [] [] =
        ([root], [fetchResult web root], (fetchResult web root).links) := by
      simp [processLevel, Nat.not_le.mpr hmp]
    simp [crawlLoop, hstep, hlinks, crawlLoop_nil]

example :
    (crawl (fun _ => none) 20 "https://example.com" 2).pages.length = 1 := by
  simp [crawl_root_failure (fun _ => none) 20 "https://example.com" 2
    (by norm_num) rfl]

/-! ## Formatter (external collaborator boundary) -/

/-- Modelled from the spec: the Formatter around the external AI
text-rewriting collaborator.  The collaborator is `none` when disabled or
unconfigured; otherwise it maps text to cleaned text or an explicit failure
(auth failure, quota, timeout, malformed response — all surfaced as
`Except.error`).  On any failure, and when disabled, the Extractor's raw text
passes through unchanged; the function is total, so no error ever reaches
the caller. -/
def formatText (svc : Option (String → Except String String)) (t : String) :
    String :=
  match svc with
  | none => t
  | some f =>
    match f t with
    | .ok u => u
    | .error _ => t

/-- Modelled from the spec: apply the Formatter to every page's extracted
text in a session. -/
def applyFormatter (svc : Option (String → Except String String))
    (s : CrawlSession) : CrawlSession :=
  { s with pages := s.pages.map (fun r => { r with text := formatText svc r.text }) }

theorem formatText_of_error (f : String → Except String String) (t e : String)
    (h : f t = .error e) : formatText (some f) t = t := by
  simp [formatText, h]

theorem applyFormatter_of_failing (f : String → Except String String)
    (hf : ∀ t, ∃ e, f t = .error e) (s : CrawlSession) :
    applyFormatter (some f) s = s := by
  unfold applyFormatter
  have : s.pages.map (fun r => { r with text := formatText (some f) r.text }) =
      s.pages := by
    have hmap : ∀ r : PageResult,
        ({ r with text := formatText (some f) r.text } : PageResult) = r := by
      intro r
      obtain ⟨e, he⟩ := hf r.text
      simp [formatText_of_error f r.text e he]
    calc s.pages.map (fun r => { r with text := formatText (some f) r.text })
        = s.pages.map id := List.map_congr_left (fun r _ => hmap r)
      _ = s.pages := List.map_id s.pages
  rw [this]

/-! ## Decimal numbers for the report format -/

/-- The decimal digit character for `d < 10`. -/
def digitChar (d : Nat) : Char := Char.ofNat (48 + d)

/-- Fuel-driven decimal digit expansion (most significant digit first).
`fuel` bounds the number of digits produced; called with enough fuel it
produces the full standard decimal representation. -/
def natDigitsAux : Nat → Nat → List Char
  | 0, _ => []
  | fuel + 1, n =>
    if n < 10 then [digitChar n]
    else natDigitsAux fuel (n / 10) ++ [digitChar (n % 10)]

/-- Decimal representation of a natural number (structural recursion, so it
evaluates inside the kernel). -/
def natRepr (n : Nat) : String := String.mk (natDigitsAux (n + 1) n)

/-- Decimal parsing of a digit string, most significant digit first. -/
def parseNatAux : List Char → Nat → Nat
  | [], a => a
  | c :: cs, a => parseNatAux cs (a * 10 + (c.toNat - 48))

/-- Decimal parsing of a string. -/
def parseNat (s : String) : Nat := parseNatAux s.data 0

example : natRepr 0 = "0" := by decide
example : natRepr 125 = "125" := by decide
example : parseNat "3057" = 3057 := by decide

theorem digitChar_toNat (d : Nat) (hd : d < 10) : (digitChar d).toNat = 48 + d := by
  interval_cases d <;> decide

theorem parseNatAux_append (l1 l2 : List Char) :
    ∀ a, parseNatAux (l1 ++ l2) a = parseNatAux l2 (parseNatAux l1 a) := by
  induction l1 with
  | nil => intro a; rfl
  | cons c cs ih => intro a; simp [parseNatAux, ih]

theorem parseNatAux_natDigitsAux :
    ∀ fuel n a, n < 10 ^ fuel →
      parseNatAux (natDigitsAux fuel n) a =
        a * 10 ^ (natDigitsAux fuel n).length + n := by
  intro fuel
  induction fuel with
  | zero => intro n a h; simp at h; simp [natDigitsAux, parseNatAux, h]
  | succ fuel ih =>
    intro n a h
    by_cases hn : n < 10
    · simp [natDigitsAux, hn, parseNatAux, digitChar_toNat n hn]
    · have hdiv : n / 10 < 10 ^ fuel := by
        rw [Nat.div_lt_iff_lt_mul (by norm_num)]
        calc n < 10 ^ (fuel + 1) := h
          _ = 10 ^ fuel * 10 := by ring
      have hmod : n % 10 < 10 := Nat.mod_lt _ (by norm_num)
      simp only [natDigitsAux, if_neg hn, parseNatAux_append, parseNatAux,
        List.length_append, List.length_singleton]
      rw [ih (n / 10) a hdiv, digitChar_toNat (n % 10) hmod, pow_succ,
        ← mul_assoc]
      generalize a * 10 ^ (natDigitsAux fuel (n / 10)).length = m
      omega

theorem parseNat_natRepr (n : Nat) : parseNat (natRepr n) = n := by
  have hfuel : n < 10 ^ (n + 1) := by
    calc n < 2 ^ n * 1 := by simpa using Nat.lt_two_pow n
      _ ≤ 10 ^ n * 10 := by
        exact Nat.mul_le_mul (Nat.pow_le_pow_left (by norm_num) n) (by norm_num)
      _ = 10 ^ (n + 1) := (pow_succ 10 n).symm
  have := parseNatAux_natDigitsAux (n + 1) n 0 hfuel
  simpa [parseNat, natRepr] using this

/-! ## Report Builder (backend engine) -/

/-- Modelled from the spec: the fixed-width banner line of the report
format (80 `=` characters). -/
def bannerLine : String := String.mk (List.replicate 80 '=')

/-- Modelled from the spec: the content block of one page — its extracted
text on success, or a line documenting the error on failure (failed pages
are visible in the report itself). -/
def pageContentLines (r : PageResult) : List String :=
  match r.error with
  | some e => ["ERROR: " ++ e]
  | none => [r.text]

/-- Modelled from the spec: the placeholder record used if a report is ever
built from a session with no pages at all. -/
def emptySessionResult (rootUrl : String) : PageResult :=
  ⟨rootUrl, rootUrl, "", false, some "No pages scraped", []⟩

/-- Modelled from the spec: the single-page report (README "Single Page
Format"), as the list of its lines: banner header with URL, title,
timestamp, success flag, scrape time; then a CONTENT section; then an END
marker. -/
def buildSingleLines (s : CrawlSession) (ts : String) : List String :=
  let r := s.pages.headD (emptySessionResult s.rootUrl)
  [bannerLine,
   "SCRAPED WEBSITE CONTENT",
   bannerLine,
   "URL: " ++ s.rootUrl,
   "Title: " ++ r.title,
   "Scraped on: " ++ ts,
   "Success: " ++ (if r.success then "True" else "False"),
   "Scrape time: " ++ (natRepr s.elapsedMs ++ " ms"),
   bannerLine,
   "CONTENT:",
   bannerLine,
   ""] ++ pageContentLines r ++
  ["",
   bannerLine,
   "END OF CONTENT",
   bannerLine]

/-- Modelled from the spec: enumerated list of scraped URLs in traversal
order, `  i. url` per line, numbering from `i`. -/
def enumUrls : Nat → List PageResult → List String
  | _, [] => []
  | i, r :: rs => ("  " ++ (natRepr i ++ (". " ++ r.url))) :: enumUrls (i + 1) rs

/-- Modelled from the spec: the per-page sections of the multi-page report —
each page wrapped in its own `PAGE i OF n` sub-banner with the page's own
URL and title and an `END OF PAGE i` marker, pages in session order. -/
def pageSections (n : Nat) : Nat → List PageResult → List String
  | _, [] => []
  | i, r :: rs =>
    [bannerLine,
     "PAGE " ++ (natRepr i ++ (" OF " ++ (natRepr n ++ (": " ++ r.title)))),
     "URL: " ++ r.url,
     bannerLine,
     ""] ++ pageContentLines r ++
    ["",
     bannerLine,
     "END OF PAGE " ++ natRepr i,
     bannerLine,
     ""] ++ pageSections n (i + 1) rs

/-- Modelled from the spec: the multi-page report (README "Recursive
Format"), as the list of its lines: the single-page banner plus total page
count, max depth used, and the enumerated scraped URLs; then each page's
sub-bannered content. -/
def buildMultiLines (s : CrawlSession) (ts : String) : List String :=
  let n := s.pages.length
  let r := s.pages.headD (emptySessionResult s.rootUrl)
  [bannerLine,
   "SCRAPED WEBSITE CONTENT",
   bannerLine,
   "URL: " ++ s.rootUrl,
   "Title: " ++ (r.title ++ (" (Recursive - " ++ (natRepr n ++ " pages)"))),
   "Scraped on: " ++ ts,
   "Success: " ++ (if s.pages.all (·.success) then "True" else "False"),
   "Scrape time: " ++ (natRepr s.elapsedMs ++ " ms"),
   "Content type: text/recursive",
   "Total pages scraped: " ++ natRepr n,
   "Max depth used: " ++ natRepr s.maxDepth,
   "Scraped URLs:"] ++ enumUrls 1 s.pages ++
  [bannerLine,
   "CONTENT:",
   bannerLine] ++ pageSections n 1 s.pages ++
  [bannerLine,
   "END OF CONTENT",
   bannerLine]

/-- Modelled from the spec: `build(CrawlSession) → Report`.  A depth-0
session is written in the single-page format, a recursive session in the
multi-page format.  The report is modelled as its list of lines; the
persisted file is these lines joined by newlines. -/
def buildReportLines (s : CrawlSession) (ts : String) : List String :=
  if s.maxDepth = 0 then buildSingleLines s ts else buildMultiLines s ts

/-- The persisted textual artifact: the report lines joined by newlines. -/
def buildReport (s : CrawlSession) (ts : String) : String :=
  String.intercalate "\n" (buildReportLines s ts)

/-! ## Banner metadata parser (for the round-trip property) -/

/-- Scan the report lines for the first line starting with `p`, stopping at
the `CONTENT:` marker (banner metadata lives strictly before it); return the
rest of that line. -/
def findMetaLine (p : String) : List String → Option String
  | [] => none
  | l :: ls =>
    if l = "CONTENT:" then none
    else
      match chopLead p l with
      | some r => some r
      | none => findMetaLine p ls

/-- Re-parse the banner metadata of a report: its URL, page count and max
depth.  A single-page report (no `Total pages scraped:` line) is one page at
depth 0. -/
def parseReportMeta (lines : List String) : String × Nat × Nat :=
  let url := (findMetaLine "URL: " lines).getD ""
  match findMetaLine "Total pages scraped: " lines with
  | some cnt =>
    (url, parseNat cnt, parseNat ((findMetaLine "Max depth used: " lines).getD "0"))
  | none => (url, 1, 0)

/-! Lemma kit: how each banner/header line reacts to the three metadata
patterns and to the `CONTENT:` marker. -/

theorem chop_self (p x : String) : chopLead p (p ++ x) = some x := by
  rcases x with ⟨xd⟩
  rcases p with ⟨pd⟩
  simp [chopLead, string_data_append, chopLeadChars_append]

theorem banner_ne_content : bannerLine ≠ "CONTENT:" := by decide

theorem swc_ne_content : "SCRAPED WEBSITE CONTENT" ≠ "CONTENT:" := by decide

theorem ct_ne_content : "Content type: text/recursive" ≠ "CONTENT:" := by decide

theorem ne_content_url (x : String) : ("URL: " ++ x) ≠ "CONTENT:" := by
  rcases x with ⟨xd⟩
  intro h
  have := congrArg String.data h
  rw [string_data_append] at this
  simp at this

theorem ne_content_title (x : String) : ("Title: " ++ x) ≠ "CONTENT:" := by
  rcases x with ⟨xd⟩
  intro h
  have := congrArg String.data h
  rw [string_data_append] at this
  simp at this

theorem ne_content_scrapedon (x : String) : ("Scraped on: " ++ x) ≠ "CONTENT:" := by
  rcases x with ⟨xd⟩
  intro h
  have := congrArg String.data h
  rw [string_data_append] at this
  simp at this

theorem ne_content_success (x : String) : ("Success: " ++ x) ≠ "CONTENT:" := by
  rcases x with ⟨xd⟩
  intro h
  have := congrArg String.data h
  rw [string_data_append] at this
  simp at this

theorem ne_content_scrapetime (x : String) : ("Scrape time: " ++ x) ≠ "CONTENT:" := by
  rcases x with ⟨xd⟩
  intro h
  have := congrArg String.data h
  rw [string_data_append] at this
  simp at this

theorem ne_content_total (x : String) :
    ("Total pages scraped: " ++ x) ≠ "CONTENT:" := by
  rcases x with ⟨xd⟩
  intro h
  have := congrArg String.data h
  rw [string_data_append] at this
  simp at this

theorem ne_content_max (x : String) : ("Max depth used: " ++ x) ≠ "CONTENT:" := by
  rcases x with ⟨xd⟩
  intro h
  have := congrArg String.data h
  rw [string_data_append] at this
  simp at this

theorem chop_url_banner : chopLead "URL: " bannerLine = none := by decide

theorem chop_url_swc : chopLead "URL: " "SCRAPED WEBSITE CONTENT" = none := by
  decide

theorem chop_total_banner :
    chopLead "Total pages scraped: " bannerLine = none := by decide

theorem chop_total_swc :
    chopLead "Total pages scraped: " "SCRAPED WEBSITE CONTENT" = none := by
  decide

theorem chop_total_ct :
    chopLead "Total pages scraped: " "Content type: text/recursive" = none := by
  decide

theorem chop_total_url (x : String) :
    chopLead "Total pages scraped: " ("URL: " ++ x) = none := by
  rcases x with ⟨xd⟩
  simp [chopLead, string_data_append, chopLeadChars]

theorem chop_total_title (x : String) :
    chopLead "Total pages scraped: " ("Title: " ++ x) = none := by
  rcases x with ⟨xd⟩
  simp [chopLead, string_data_append, chopLeadChars]

theorem chop_total_scrapedon (x : String) :
    chopLead "Total pages scraped: " ("Scraped on: " ++ x) = none := by
  rcases x with ⟨xd⟩
  simp [chopLead, string_data_append, chopLeadChars]

theorem chop_total_success (x : String) :
    chopLead "Total pages scraped: " ("Success: " ++ x) = none := by
  rcases x with ⟨xd⟩
  simp [chopLead, string_data_append, chopLeadChars]

theorem chop_total_scrapetime (x : String) :
    chopLead "Total pages scraped: " ("Scrape time: " ++ x) = none := by
  rcases x with ⟨xd⟩
  simp [chopLead, string_data_append, chopLeadChars]

theorem chop_max_banner : chopLead "Max depth used: " bannerLine = none := by
  decide

theorem chop_max_swc :
    chopLead "Max depth used: " "SCRAPED WEBSITE CONTENT" = none := by decide

theorem chop_max_ct :
    chopLead "Max depth used: " "Content type: text/recursive" = none := by
  decide

theorem chop_max_url (x : String) :
    chopLead "Max depth used: " ("URL: " ++ x) = none := by
  rcases x with ⟨xd⟩
  simp [chopLead, string_data_append, chopLeadChars]

theorem chop_max_title (x : String) :
    chopLead "Max depth used: " ("Title: " ++ x) = none := by
  rcases x with ⟨xd⟩
  simp [chopLead, string_data_append, chopLeadChars]

theorem chop_max_scrapedon (x : String) :
    chopLead "Max depth used: " ("Scraped on: " ++ x) = none := by
  rcases x with ⟨xd⟩
  simp [chopLead, string_data_append, chopLeadChars]

theorem chop_max_success (x : String) :
    chopLead "Max depth used: " ("Success: " ++ x) = none := by
  rcases x with ⟨xd⟩
  simp [chopLead, string_data_append, chopLeadChars]

theorem chop_max_scrapetime (x : String) :
    chopLead "Max depth used: " ("Scrape time: " ++ x) = none := by
  rcases x with ⟨xd⟩
  simp [chopLead, string_data_append, chopLeadChars]

theorem chop_max_total (x : String) :
    chopLead "Max depth used: " ("Total pages scraped: " ++ x) = none := by
  rcases x with ⟨xd⟩
  simp [chopLead, string_data_append, chopLeadChars]

/-- A single-page report parses back to its URL, one page, depth 0. -/
theorem parse_single (s : CrawlSession) (ts : String) :
    parseReportMeta (buildSingleLines s ts) = (s.rootUrl, 1, 0) := by
  have hurl : findMetaLine "URL: " (buildSingleLines s ts) = some s.rootUrl := by
    simp [buildSingleLines, findMetaLine, banner_ne_content, swc_ne_content,
      chop_url_banner, chop_url_swc, ne_content_url, chop_self]
  have htot : findMetaLine "Total pages scraped: " (buildSingleLines s ts) =
      none := by
    simp [buildSingleLines, findMetaLine, banner_ne_content, swc_ne_content,
      chop_total_banner, chop_total_swc, chop_total_url, chop_total_title,
      chop_total_scrapedon, chop_total_success, chop_total_scrapetime,
      ne_content_url, ne_content_title, ne_content_scrapedon,
      ne_content_success, ne_content_scrapetime]
  simp [parseReportMeta, hurl, htot]

/-- A multi-page report parses back to its URL, page count and max depth. -/
theorem parse_multi (s : CrawlSession) (ts : String) :
    parseReportMeta (buildMultiLines s ts) =
      (s.rootUrl, s.pages.length, s.maxDepth) := by
  have hurl : findMetaLine "URL: " (buildMultiLines s ts) = some s.rootUrl := by
    simp [buildMultiLines, findMetaLine, banner_ne_content, swc_ne_content,
      chop_url_banner, chop_url_swc, ne_content_url, chop_self]
  have htot : findMetaLine "Total pages scraped: " (buildMultiLines s ts) =
      some (natRepr s.pages.length) := by
    simp [buildMultiLines, findMetaLine, banner_ne_content, swc_ne_content,
      ct_ne_content, chop_total_banner, chop_total_swc, chop_total_ct,
      chop_total_url, chop_total_title, chop_total_scrapedon,
      chop_total_success, chop_total_scrapetime, ne_content_url,
      ne_content_title, ne_content_scrapedon, ne_content_success,
      ne_content_scrapetime, ne_content_total, chop_self]
  have hmax : findMetaLine "Max depth used: " (buildMultiLines s ts) =
      some (natRepr s.maxDepth) := by
    simp [buildMultiLines, findMetaLine, banner_ne_content, swc_ne_content,
      ct_ne_content, chop_max_banner, chop_max_swc, chop_max_ct, chop_max_url,
      chop_max_title, chop_max_scrapedon, chop_max_success,
      chop_max_scrapetime, chop_max_total, ne_content_url, ne_content_title,
      ne_content_scrapedon, ne_content_success, ne_content_scrapetime,
      ne_content_total, ne_content_max, chop_self]
  simp [parseReportMeta, hurl, htot, hmax, parseNat_natRepr]

/-! ## Backend request validation (external interface) -/

/-- Modelled from the spec: the backend's validation of an inbound scrape
request (`api.py`, absent from this source tree).  The URL must be
non-empty; a URL with no scheme is prefixed with `https://`; a depth outside
{0, 1, 2} is rejected with a validation error (signaled upward, not silently
clamped). -/
def validateRequest (req : ScrapeRequestBody) : Except String ScrapeRequestBody :=
  if req.url = "" then
    .error "URL is required"
  else if req.depth = 0 ∨ req.depth = 1 ∨ req.depth = 2 then
    .ok { req with
          url := if strStarts "http://" req.url || strStarts "https://" req.url
                 then req.url else "https://" ++ req.url }
  else
    .error "Depth must be 0, 1, or 2"

/-- Modelled from the spec: the scrape endpoint — validate first; only a
validated request starts any crawl work. -/
def handleScrape (web : Web) (maxPages : Nat) (req : ScrapeRequestBody) :
    Except String CrawlSession :=
  match validateRequest req with
  | .error e => .error e
  | .ok r => .ok (crawl web maxPages r.url r.depth.toNat)

example :
    handleScrape (fun _ => none) 20 ⟨"https://example.com", 3, true, ""⟩ =
      .error "Depth must be 0, 1, or 2" := by rfl

example :
    validateRequest ⟨"example.com", 0, true, ""⟩ =
      .ok ⟨"https://example.com", 0, true, ""⟩ := by rfl

/-! ## Concrete fixtures used by witnesses -/

/-- A small network: the example domain with two same-domain links; every
other URL fails on all strategies. -/
def webEx : Web := fun u =>
  if u = "https://example.com" then
    some ⟨"Example Domain", "Example text",
      ["https://example.com/a", "https://example.com/b"]⟩
  else none

/-- A network on which every fetch fails. -/
def webDown : Web := fun _ => none

/-- An external collaborator that fails on every input. -/
def failingLLM : String → Except String String := fun _ => .error "quota exceeded"

/-- Outcomes where every strategy fails. -/
def oFail : Strategy → Except String String := fun st =>
  match st with
  | .http => .error "403 Forbidden"
  | .headless => .error "timeout"
  | .browser => .error "selenium timeout"

/-- A one-page depth-0 session. -/
def sessionEx : CrawlSession :=
  ⟨"https://example.com", 0,
   [⟨"https://example.com", "Example Domain", "Example text", true, none, []⟩], 0⟩

/-- A depth-zero crawl consists of exactly the root page's result. -/
theorem crawl_depth_zero (web : Web) (mp : Nat) (root : String) (hmp : 0 < mp) :
    (crawl web mp root 0).pages = [fetchResult web root] := by
  unfold crawl
  simp [crawlLoop, processLevel, Nat.not_le.mpr hmp]

/-! ## Claims -/

/-- C1, counterexample: the non-empty, scheme-less URL `example.com` is
rejected by `handleSubmit` with a validation error; it is not prefixed with
`https://` and submitted, contradicting the claim as stated. -/
theorem C1_counterexample :
    handleSubmit "example.com" 0 true "" =
      SubmitOutcome.rejected "URL must start with http:// or https://" ∧
    handleSubmit "example.com" 0 true "" ≠
      SubmitOutcome.submitted (scrapeWebsiteBody "https://example.com" 0 true "") := by
  decide

/-- C1 (amended): for every non-empty URL input that starts with neither
`http://` nor `https://`, the frontend submit handler rejects the input with
the validation error "URL must start with http:// or https://" instead of
prefixing `https://`; no request is posted. -/
theorem C1_schemeless_url_rejected (url : String) (depth : Int) (llm : Bool)
    (filename : String) (hne : jsTrim url ≠ "")
    (h1 : strStarts "http://" url = false)
    (h2 : strStarts "https://" url = false) :
    handleSubmit url depth llm filename =
      SubmitOutcome.rejected "URL must start with http:// or https://" := by
  simp [handleSubmit, hne, h1, h2]

theorem C1_witness :
    handleSubmit "example.com" 7 false "name" =
      SubmitOutcome.rejected "URL must start with http:// or https://" :=
  C1_schemeless_url_rejected "example.com" 7 false "name" (by decide) (by decide)
    (by decide)

/-- C2: for every network, page ceiling (positive, as any hard ceiling is)
and root URL, `crawl(url, 0)` never follows links — its session holds
exactly one PageResult, the root's own. -/
theorem C2_depth_zero_single_page (web : Web) (maxPages : Nat) (root : String)
    (hmp : 0 < maxPages) :
    (crawl web maxPages root 0).pages = [fetchResult web root] ∧
    (crawl web maxPages root 0).pages.length = 1 := by
  refine ⟨crawl_depth_zero web maxPages root hmp, ?_⟩
  rw [crawl_depth_zero web maxPages root hmp]
  rfl

theorem C2_witness :
    (crawl webEx 20 "https://example.com" 0).pages.length = 1 :=
  (C2_depth_zero_single_page webEx 20 "https://example.com" (by norm_num)).2

/-- C3: for every crawl session at maxDepth 0, 1 or 2, no URL appears twice
among the visited/recorded URLs, and the number of pages visited never
exceeds the hard page-count ceiling. -/
theorem C3_no_duplicates_within_ceiling (web : Web) (maxPages : Nat)
    (root : String) (d : Nat) (_hd : d = 0 ∨ d = 1 ∨ d = 2) :
    (((crawl web maxPages root d).pages.map PageResult.url).Nodup) ∧
    (crawl web maxPages root d).pages.length ≤ maxPages := by
  obtain ⟨hn, hm, hl, -⟩ :=
    crawlLoop_inv web maxPages d [root] [] [] (by simp) rfl (by simp)
  constructor
  · show (((crawlLoop web maxPages d [root] [] []).2.map PageResult.url).Nodup)
    rw [hm]
    exact hn
  · show (crawlLoop web maxPages d [root] [] []).2.length ≤ maxPages
    calc (crawlLoop web maxPages d [root] [] []).2.length
        = ((crawlLoop web maxPages d [root] [] []).2.map PageResult.url).length := by
          rw [List.length_map]
      _ = (crawlLoop web maxPages d [root] [] []).1.length := by rw [hm]
      _ ≤ maxPages := hl

theorem C3_witness :
    ((crawl webEx 2 "https://example.com" 1).pages.map PageResult.url).Nodup ∧
    (crawl webEx 2 "https://example.com" 1).pages.length ≤ 2 :=
  C3_no_duplicates_within_ceiling webEx 2 "https://example.com" 1
    (Or.inr (Or.inl rfl))

/-- C4: fetch tries the strategies in the fixed priority order (lightweight
HTTP client, then headless renderer, then full browser automation); an
earlier strategy's failure silently advances to the next, and fetch fails
iff all three strategies fail, in which case it carries the last strategy's
failure reason. -/
theorem C4_fetch_fallback_order (o : Strategy → Except String String) :
    fetch o = tryStrategies [o .http, o .headless, o .browser] ∧
    (∀ h, o .http = .ok h → fetch o = .ok h) ∧
    (∀ e h, o .http = .error e → o .headless = .ok h → fetch o = .ok h) ∧
    (∀ e e' h, o .http = .error e → o .headless = .error e' →
      o .browser = .ok h → fetch o = .ok h) ∧
    (∀ e, fetch o = .error e ↔
      (∃ e1, o .http = .error e1) ∧ (∃ e2, o .headless = .error e2) ∧
        o .browser = .error e) := by
  refine ⟨rfl, ?_, ?_, ?_, ?_⟩ <;>
    cases hh : o .http <;> cases hl : o .headless <;> cases hb : o .browser <;>
      simp [fetch, strategyOrder, tryStrategies, hh, hl, hb]

theorem C4_witness : fetch oFail = .error "selenium timeout" :=
  ((C4_fetch_fallback_order oFail).2.2.2.2 "selenium timeout").mpr
    ⟨⟨"403 Forbidden", rfl⟩, ⟨"timeout", rfl⟩, rfl⟩

/-- C5: extraction behaves exactly as text gathering after every script and
style element has been removed, so the text content of script/style elements
never reaches the output; a document that is itself a script or style element
extracts to the empty string.  Extraction is a total function on arbitrary
(also malformed) node trees, so it never raises. -/
theorem C5_no_script_style_leakage :
    (∀ h : Html, extractText h = gatherText (stripRemoved h)) ∧
    (∀ cs : HtmlList, extractText (.elem "script" cs) = "" ∧
      extractText (.elem "style" cs) = "") := by
  refine ⟨extractText_eq_gather_strip, fun cs => ⟨?_, ?_⟩⟩ <;>
    simp [extractText, removedTags]

/-- C6: whenever the external reformatting collaborator fails on every text
(or is disabled), the Formatter passes the Extractor's raw text through
unchanged, the session is untouched, and the built Report is exactly the one
built from the unformatted session; no error reaches the caller. -/
theorem C6_formatter_failure_passthrough (f : String → Except String String)
    (s : CrawlSession) (ts : String) (hf : ∀ t, ∃ e, f t = .error e) :
    applyFormatter (some f) s = s ∧
    buildReportLines (applyFormatter (some f) s) ts = buildReportLines s ts ∧
    (∀ t, formatText (some f) t = t) ∧ (∀ t, formatText none t = t) := by
  have h1 := applyFormatter_of_failing f hf s
  refine ⟨h1, by rw [h1], fun t => ?_, fun t => rfl⟩
  obtain ⟨e, he⟩ := hf t
  exact formatText_of_error f t e he

theorem C6_witness : applyFormatter (some failingLLM) sessionEx = sessionEx :=
  (C6_formatter_failure_passthrough failingLLM sessionEx "2025-10-30 12:52:43"
    (fun _ => ⟨"quota exceeded", rfl⟩)).1

/-- C7: a page whose fetch fails on every strategy is recorded as a
PageResult with `success = false` and an error message, the session is never
empty (failures do not abort it), and even total failure of the root page
yields a report whose lines document the URL, the timestamp, and the
error. -/
theorem C7_failure_recorded_report_written (web : Web) (mp : Nat)
    (root : String) (d : Nat) (ts : String) (hmp : 0 < mp) :
    (∀ r ∈ (crawl web mp root d).pages, web r.url = none →
      r.success = false ∧ r.error.isSome = true) ∧
    (crawl web mp root d).pages ≠ [] ∧
    (web root = none →
      ("URL: " ++ root) ∈ buildReportLines (crawl web mp root d) ts ∧
      ("Scraped on: " ++ ts) ∈ buildReportLines (crawl web mp root d) ts ∧
      ("ERROR: " ++ fetchFailureMsg) ∈ buildReportLines (crawl web mp root d) ts) := by
  refine ⟨?_, ?_, ?_⟩
  · intro r hr
    exact (crawlLoop_records web mp d [root] [] [] (by simp) r hr).1
  · obtain ⟨t, ht⟩ := crawl_pages_head web mp root d hmp
    simp [ht]
  · intro hw
    have hpages := crawl_root_failure web mp root d hmp hw
    have hfr : fetchResult web root =
        ⟨root, root, "", false, some fetchFailureMsg, []⟩ := by
      simp [fetchResult, hw]
    have hsess : crawl web mp root d =
        ⟨root, d, [⟨root, root, "", false, some fetchFailureMsg, []⟩], 0⟩ := by
      have : crawl web mp root d =
          ⟨root, d, (crawl web mp root d).pages, 0⟩ := rfl
      rw [this, hpages, hfr]
    rw [hsess]
    cases d with
    | zero =>
      refine ⟨?_, ?_, ?_⟩ <;>
        simp [buildReportLines, buildSingleLines, pageContentLines]
    | succ d =>
      refine ⟨?_, ?_, ?_⟩ <;>
        simp [buildReportLines, buildSingleLines, buildMultiLines,
          pageSections, pageContentLines, enumUrls]

theorem C7_witness :
    ("URL: " ++ "https://example.com") ∈
      buildReportLines (crawl webDown 20 "https://example.com" 0) "2025-10-30" :=
  ((C7_failure_recorded_report_written webDown 20 "https://example.com" 0
    "2025-10-30" (by norm_num)).2.2 rfl).1

/-- C8: building the Report from a CrawlSession and re-parsing the banner
metadata recovers exactly the session's root URL, page count and max depth
(for the sessions the crawler produces: a depth-0 session has exactly one
page). -/
theorem C8_report_metadata_roundtrip (s : CrawlSession) (ts : String)
    (h : s.maxDepth = 0 → s.pages.length = 1) :
    parseReportMeta (buildReportLines s ts) =
      (s.rootUrl, s.pages.length, s.maxDepth) := by
  by_cases hd : s.maxDepth = 0
  · rw [buildReportLines, if_pos hd, parse_single, hd, h hd]
  · rw [buildReportLines, if_neg hd, parse_multi]

theorem C8_witness :
    parseReportMeta (buildReportLines sessionEx "2025-10-30 12:52:43") =
      ("https://example.com", 1, 0) :=
  C8_report_metadata_roundtrip sessionEx "2025-10-30 12:52:43" (fun _ => rfl)

/-- C9: a request whose depth lies outside {0,1,2} is rejected with a
validation error signaled upward: the scrape endpoint returns an error, the
result is independent of the network (no fetch work is attempted), and no
session is ever produced (the depth is not silently clamped). -/
theorem C9_invalid_depth_rejected (web web' : Web) (mp : Nat)
    (req : ScrapeRequestBody)
    (hd : req.depth ≠ 0 ∧ req.depth ≠ 1 ∧ req.depth ≠ 2) :
    (∃ e, handleScrape web mp req = .error e) ∧
    handleScrape web mp req = handleScrape web' mp req ∧
    (∀ s, handleScrape web mp req ≠ .ok s) := by
  have hval : validateRequest req =
      .error (if req.url = "" then "URL is required"
              else "Depth must be 0, 1, or 2") := by
    unfold validateRequest
    by_cases hu : req.url = ""
    · simp [hu]
    · simp [hu, hd.1, hd.2.1, hd.2.2]
  refine ⟨⟨if req.url = "" then "URL is required"
           else "Depth must be 0, 1, or 2", ?_⟩, ?_, ?_⟩ <;>
    simp [handleScrape, hval]

theorem C9_witness :
    ∃ e, handleScrape webDown 20 ⟨"https://example.com", 3, true, ""⟩ =
      .error e :=
  (C9_invalid_depth_rejected webDown webDown 20
    ⟨"https://example.com", 3, true, ""⟩ ⟨by decide, by decide, by decide⟩).1

/-- C10: a call to `scrapeWebsite` with only a URL argument posts a body
holding exactly the fields `url`, `depth`, `llm_enabled`, `filename`, with
`depth = 0`, `llm_enabled = true` and `filename = ""`. -/
theorem C10_scrape_defaults (url : String) :
    scrapeWebsiteCall url none none none =
      { url := url, depth := 0, llm_enabled := true, filename := "" } := rfl
